import Mathlib

/-!
# Margin-analysis core: shallow embedding

Shallow embedding of the margin-analysis core of the `pilatus_poc`
repository, translated from:

* `src/src/calculators/margin_calc_python.py` (native panel/joint engine),
* `src/src/calculators/margin_calc_excel.py` (spreadsheet-driven backend),
* `src/src/extractors/result_organizer.py` (chapter organizer).

Python floats are embedded as exact rationals (`ℚ`); Python dicts whose
key sets matter to the properties are embedded as association lists in
insertion order (mirroring dict iteration order); a value that may be a
string error marker instead of numeric data is an `Entry`.  `round` to two
decimal places is embedded with Mathlib's `round` (ties away from the
binary-float tie behaviour are beneath the granularity of the embedding).
The spreadsheet session itself is external to the repository and is
modelled as a state-threaded oracle (`XwEnv`): opening, writing, reading
cells may return a value or raise (an `Except.error`), exactly the effect
surface the Python code consumes through `xlwings`.
-/

namespace Pilatus

/-! ## Definitions: the embedded program -/

/-- A Python scalar value as it appears in the result records: a number,
a string, or `None` (as returned by an empty spreadsheet cell). -/
inductive PyVal where
  | num (q : ℚ)
  | str (s : String)
  | none
deriving DecidableEq

/-- Python's `pat in s` substring test. -/
def strContains (s pat : String) : Bool :=
  decide (pat.toList <:+: s.toList)

/-- Python's `s.lower()` (ASCII, as in every name this program
handles). -/
def strLower (s : String) : String :=
  String.mk (s.toList.map Char.toLower)

/-- Python's `round(x, 2)`. -/
def round2 (q : ℚ) : ℚ :=
  (round (q * 100) : ℤ) / 100

/-- The near-zero guard threshold `1e-6`. -/
def eps : ℚ := 1 / 1000000

/-- The sentinel reserve factor `99.99` recorded when no meaningful load
is applied. -/
def sentinel : ℚ := 9999 / 100

/-- `rf = allow / applied if applied > 1e-6 else 99.99`: the guarded
reserve-factor expression shared by both native calculators. -/
def guarded_rf (allow applied : ℚ) : ℚ :=
  if applied > eps then allow / applied else sentinel

/-- The `ALLOWABLES` table of `margin_calc_python.py`, in declaration
order. -/
def ALLOWABLES : List (String × List (String × ℚ)) :=
  [ ("Upper_Skin_Panel",  [("Shear", 150), ("Compression", 150)]),
    ("Intermediate_Ribs", [("Shear", 250), ("Compression", 250)]),
    ("Flap_Box_Assembly", [("Shear", 500), ("Compression", 500)]),
    ("Front_Spar_Splice", [("Shear", 50000), ("Bearing", 75000)]),
    ("Flap_Shear_Clip",   [("Shear", 50000), ("Bearing", 75000)]),
    ("Default_Joint",     [("Shear", 25000)]) ]

/-- A load-case entry of a forces/loads dict: either an error-marker
string or numeric data. -/
inductive Entry (α : Type) where
  | err (s : String)
  | val (a : α)
deriving DecidableEq

/-- The numeric force record consumed by `calculate_panel_margins`;
`Option` mirrors `force.get(key, 0.0)` robustness to missing keys. -/
structure PanelForces where
  Fx_Nmm : Option ℚ
  Fxy_Nmm : Option ℚ
deriving DecidableEq

/-- The numeric load record consumed by `calculate_joint_margins`. -/
structure JointForces where
  Fx : Option ℚ
  Fy : Option ℚ
  Fz : Option ℚ
deriving DecidableEq

/-- Smart allowable lookup of `calculate_panel_margins`: exact name,
then the hardcoded (case-sensitive) `"Rib"` / `"Box"` substring checks,
then the boosted generic default.  The `isEmpty` test mirrors Python's
`if not allowables` falsiness check. -/
def panel_allowables (element_name : String) : List (String × ℚ) :=
  let a := (ALLOWABLES.lookup element_name).getD []
  if a.isEmpty then
    if strContains element_name "Rib" then (ALLOWABLES.lookup "Intermediate_Ribs").getD []
    else if strContains element_name "Box" then (ALLOWABLES.lookup "Flap_Box_Assembly").getD []
    else [("Shear", 100), ("Compression", 100)]
  else a

/-- `allowables.get("Compression", 100.0)` for the resolved panel entry. -/
def panel_allow_comp (element_name : String) : ℚ :=
  ((panel_allowables element_name).lookup "Compression").getD 100

/-- `allowables.get("Shear", 100.0)` for the resolved panel entry. -/
def panel_allow_shear (element_name : String) : ℚ :=
  ((panel_allowables element_name).lookup "Shear").getD 100

/-- Smart allowable lookup of `calculate_joint_margins`: exact name,
then the hardcoded (case-sensitive) `"Clip"` / `"Spar"` substring checks,
then `Default_Joint`. -/
def joint_allowables (component_name : String) : List (String × ℚ) :=
  let a := (ALLOWABLES.lookup component_name).getD []
  if a.isEmpty then
    if strContains component_name "Clip" then (ALLOWABLES.lookup "Flap_Shear_Clip").getD []
    else if strContains component_name "Spar" then (ALLOWABLES.lookup "Front_Spar_Splice").getD []
    else (ALLOWABLES.lookup "Default_Joint").getD []
  else a

/-- `allowables.get("Shear", 25000.0)` for the resolved joint entry. -/
def joint_allowable_shear (component_name : String) : ℚ :=
  ((joint_allowables component_name).lookup "Shear").getD 25000

/-- The per-load-case body of `calculate_panel_margins`: compression and
shear reserve factors, governing-mode selection, and the result record
literal (as an association list, mirroring the Python dict literal). -/
def calculate_panel_case (allow_comp allow_shear : ℚ) (force : PanelForces) :
    List (String × PyVal) :=
  let fx := |force.Fx_Nmm.getD 0|
  let fxy := |force.Fxy_Nmm.getD 0|
  let rf_comp := guarded_rf allow_comp fx
  let rf_shear := guarded_rf allow_shear fxy
  if rf_comp < rf_shear then
    [ ("Method", PyVal.str "Python_Native"),
      ("Applied_Load", PyVal.num (round2 fx)),
      ("Allowable", PyVal.num allow_comp),
      ("RF", PyVal.num (round2 rf_comp)),
      ("Failure_Mode", PyVal.str "Compression") ]
  else
    [ ("Method", PyVal.str "Python_Native"),
      ("Applied_Load", PyVal.num (round2 fxy)),
      ("Allowable", PyVal.num allow_shear),
      ("RF", PyVal.num (round2 rf_shear)),
      ("Failure_Mode", PyVal.str "Shear") ]

/-- The per-load-case body of `calculate_joint_margins`, given the
resultant `r` computed by `math.sqrt`. -/
def calculate_joint_case (allowable_shear r : ℚ) : List (String × PyVal) :=
  let rf := guarded_rf allowable_shear r
  [ ("Method", PyVal.str "Python_Native"),
    ("Applied_Load", PyVal.num (round2 r)),
    ("Allowable", PyVal.num allowable_shear),
    ("RF", PyVal.num (round2 rf)),
    ("Failure_Mode", PyVal.str "Resultant Shear") ]

/-- The shared loop shape of both native calculators: iterate the dict in
order, `continue` on string error markers, and record one result per
numeric load case. -/
def resultsOf {α : Type} (g : α → List (String × PyVal))
    (d : List (ℕ × Entry α)) : List (ℕ × List (String × PyVal)) :=
  d.filterMap (fun p => match p.2 with
    | Entry.err _ => Option.none
    | Entry.val a => some (p.1, g a))

/-- `calculate_panel_margins` of `margin_calc_python.py`. -/
def calculate_panel_margins (element_name : String)
    (forces_dict : List (ℕ × Entry PanelForces)) :
    List (ℕ × List (String × PyVal)) :=
  resultsOf
    (calculate_panel_case (panel_allow_comp element_name) (panel_allow_shear element_name))
    forces_dict

/-- `fx**2 + fy**2 + fz**2` for a joint load record (missing keys
default to `0.0`). -/
def sq_resultant (l : JointForces) : ℚ :=
  (l.Fx.getD 0) ^ 2 + (l.Fy.getD 0) ^ 2 + (l.Fz.getD 0) ^ 2

/-- `r` is the value `math.sqrt` returns for the squared resultant of
`l`: nonnegative, squaring back to the sum of squares. -/
def isResultant (l : JointForces) (r : ℚ) : Prop :=
  0 ≤ r ∧ r ^ 2 = sq_resultant l

instance (l : JointForces) (r : ℚ) : Decidable (isResultant l r) := by
  unfold isResultant; infer_instance

/-- `calculate_joint_margins` of `margin_calc_python.py`.  The square
root has no exact rational embedding, so the resultant is supplied by the
oracle `res`; every theorem about this function pins `res f` down with
`isResultant f (res f)`. -/
def calculate_joint_margins (component_name : String)
    (loads_dict : List (ℕ × Entry JointForces)) (res : JointForces → ℚ) :
    List (ℕ × List (String × PyVal)) :=
  resultsOf
    (fun f => calculate_joint_case (joint_allowable_shear component_name) (res f))
    loads_dict

/-- `find_registry_config` of `margin_calc_excel.py`: exact key match,
then the first registry key (in declared order) whose lowercased text
occurs anywhere inside the lowercased component name. -/
def find_registry_config {α : Type} (component_name : String)
    (registry : List (String × α)) : Option α :=
  (registry.lookup component_name).orElse
    (fun _ =>
      (registry.find? (fun kc => strContains (strLower component_name) (strLower kc.1))).map
        Prod.snd)

/-- One registry entry of `calculator_registry.json`, as the Excel
driver reads it. -/
structure ExcelConfig where
  driver : String := ""
  filename : String := ""
  sheet : String := ""
  inputs : List (String × String) := []
  output_rf : String := ""
  output_sheet : String := ""
  output_cell_rf : String := ""
  output_cell_loc : String := ""

/-- The external spreadsheet session: file existence, opening a
workbook, writing and reading cells (any of which may raise), and
closing the workbook. -/
structure XwEnv (σ : Type) where
  file_exists : String → Bool
  openBook : σ → String → Except String σ
  writeCell : σ → String → String → String → ℚ → Except String σ
  readCell : σ → String → String → String → Except String (σ × PyVal)
  closeBook : σ → σ

/-- One component's payload: `comp_data.get("Forces",
comp_data.get("Loads", {}))`. -/
structure CompData where
  Forces : Option (List (ℕ × Entry (List (String × ℚ)))) := Option.none
  Loads : Option (List (ℕ × Entry (List (String × ℚ)))) := Option.none

/-- `comp_data.get("Forces", comp_data.get("Loads", {}))`. -/
def loads_map (cd : CompData) : List (ℕ × Entry (List (String × ℚ))) :=
  cd.Forces.getD (cd.Loads.getD [])

/-- A component's slot in the Excel driver's output: a per-component
error record or its per-load-case results. -/
inductive CompEntry where
  | error (msg : String)
  | cases (l : List (ℕ × List (String × PyVal)))
deriving DecidableEq

/-- The overall result of `calculate_with_excel`: a run-aborting
`{"Error": ...}` dict, or the `{"Elements": ..., "Freebodies": ...}`
output. -/
inductive ExcelOutput where
  | globalError (msg : String)
  | ok (elements freebodies : List (String × CompEntry))
deriving DecidableEq

/-- Python `str(...)` of a cell value, for the master driver's note. -/
def pyvalStr : PyVal → String
  | PyVal.num q => toString q
  | PyVal.str s => s
  | PyVal.none => "None"

/-- Status of one simple-driver case: "PASS" unless the cell was empty
("ERROR") or numeric and `< 1.0` ("FAIL"). -/
def excel_simple_status : PyVal → String
  | PyVal.none => "ERROR"
  | PyVal.num q => if q < 1 then "FAIL" else "PASS"
  | PyVal.str _ => "PASS"

/-- The simple driver's per-load-case result record. -/
def excel_simple_case (rf : PyVal) : List (String × PyVal) :=
  [ ("Method", PyVal.str "Excel_Simple"),
    ("RF", rf),
    ("Status", PyVal.str (excel_simple_status rf)) ]

/-- Status of a master-driver case: "PASS" only when the summary cell
is numeric and `> 1.0`, otherwise "FAIL". -/
def excel_master_status : PyVal → String
  | PyVal.num q => if q > 1 then "PASS" else "FAIL"
  | _ => "FAIL"

/-- The master driver's per-load-case result record. -/
def excel_master_case (min_rf location : PyVal) : List (String × PyVal) :=
  [ ("Method", PyVal.str "Excel_Master"),
    ("RF", min_rf),
    ("Note", PyVal.str ("Critical Loc: " ++ pyvalStr location)),
    ("Status", PyVal.str (excel_master_status min_rf)) ]

/-- The simple driver's input-writing loop: each configured input cell
receives the load value (absolute value for `Fx`/`Fy` keys). -/
def writeInputs {σ : Type} (env : XwEnv σ) (cfg : ExcelConfig)
    (load_vals : List (String × ℚ)) :
    σ → List (String × String) → Except String σ
  | st, [] => Except.ok st
  | st, (json_key, cell_addr) :: rest =>
    match env.writeCell st cfg.filename cfg.sheet cell_addr
        (if strContains json_key "Fx" || strContains json_key "Fy" then
          |(load_vals.lookup json_key).getD 0| else (load_vals.lookup json_key).getD 0) with
    | Except.error e => Except.error e
    | Except.ok st' => writeInputs env cfg load_vals st' rest

/-- The simple driver's loop over load cases: skip error markers, write
inputs, read the reserve-factor cell, record the result. -/
def runSimpleCases {σ : Type} (env : XwEnv σ) (cfg : ExcelConfig) :
    σ → List (ℕ × Entry (List (String × ℚ))) →
    Except String (σ × List (ℕ × List (String × PyVal)))
  | st, [] => Except.ok (st, [])
  | st, (_, Entry.err _) :: rest => runSimpleCases env cfg st rest
  | st, (lc, Entry.val lv) :: rest =>
    match writeInputs env cfg lv st cfg.inputs with
    | Except.error e => Except.error e
    | Except.ok st1 =>
      match env.readCell st1 cfg.filename cfg.sheet cfg.output_rf with
      | Except.error e => Except.error e
      | Except.ok (st2, rf) =>
        match runSimpleCases env cfg st2 rest with
        | Except.error e => Except.error e
        | Except.ok (st3, out) => Except.ok (st3, (lc, excel_simple_case rf) :: out)

/-- The master driver: read the summary reserve factor and critical
location once, then apply them to the requested cases 1–5. -/
def runMaster {σ : Type} (env : XwEnv σ) (cfg : ExcelConfig) (st : σ) :
    Except String (σ × List (ℕ × List (String × PyVal))) :=
  match env.readCell st cfg.filename cfg.output_sheet cfg.output_cell_rf with
  | Except.error e => Except.error e
  | Except.ok (st1, min_rf) =>
    match env.readCell st1 cfg.filename cfg.output_sheet cfg.output_cell_loc with
    | Except.error e => Except.error e
    | Except.ok (st2, location) =>
      Except.ok (st2, [1, 2, 3, 4, 5].map (fun lc => (lc, excel_master_case min_rf location)))

/-- Processing of one component inside `calculate_with_excel`'s loop:
registry lookup (skip the component on a miss), the missing-file check
(a per-component error entry), then open / drive / close.  Exceptions
propagate out of the loop. -/
def runComponent {σ : Type} (env : XwEnv σ) (registry : List (String × ExcelConfig))
    (st : σ) (name : String) (cd : CompData) :
    Except String (σ × Option (String × CompEntry)) :=
  match find_registry_config name registry with
  | Option.none => Except.ok (st, Option.none)
  | some cfg =>
    if env.file_exists cfg.filename = false then
      Except.ok (st, some (name, CompEntry.error "Excel file not found"))
    else
      match env.openBook st cfg.filename with
      | Except.error e => Except.error e
      | Except.ok st1 =>
        if cfg.driver = "excel_simple" then
          match runSimpleCases env cfg st1 (loads_map cd) with
          | Except.error e => Except.error e
          | Except.ok (st2, cs) =>
            Except.ok (env.closeBook st2, some (name, CompEntry.cases cs))
        else if cfg.driver = "excel_master" then
          match runMaster env cfg st1 with
          | Except.error e => Except.error e
          | Except.ok (st2, cs) =>
            Except.ok (env.closeBook st2, some (name, CompEntry.cases cs))
        else Except.ok (env.closeBook st1, Option.none)

/-- The loop over one section's components, in order. -/
def runComponents {σ : Type} (env : XwEnv σ) (registry : List (String × ExcelConfig)) :
    σ → List (String × CompData) → Except String (σ × List (String × CompEntry))
  | st, [] => Except.ok (st, [])
  | st, (name, cd) :: rest =>
    match runComponent env registry st name cd with
    | Except.error e => Except.error e
    | Except.ok (st1, ent) =>
      match runComponents env registry st1 rest with
      | Except.error e => Except.error e
      | Except.ok (st2, out) =>
        Except.ok (st2, match ent with | some e => e :: out | Option.none => out)

/-- `calculate_with_excel` of `margin_calc_excel.py`: empty registry
aborts; otherwise Elements then Freebodies are processed; any exception
escaping the loops becomes a run-wide `{"Error": ...}` result. -/
def calculate_with_excel {σ : Type} (env : XwEnv σ) (st : σ)
    (registry : List (String × ExcelConfig))
    (elements freebodies : List (String × CompData)) : ExcelOutput :=
  if registry.isEmpty then ExcelOutput.globalError "Calculator Registry Missing"
  else
    match runComponents env registry st elements with
    | Except.error e => ExcelOutput.globalError e
    | Except.ok (st1, es) =>
      match runComponents env registry st1 freebodies with
      | Except.error e => ExcelOutput.globalError e
      | Except.ok (_, fs) => ExcelOutput.ok es fs

/-- Counterexample environment for claim C6: opening the workbook
`flap_margin_calc.xlsx` raises; everything else succeeds, reads
returning a reserve factor of 2. -/
def env_openFail : XwEnv Unit where
  file_exists := fun _ => true
  openBook := fun st f =>
    if f = "flap_margin_calc.xlsx" then Except.error "Open failed" else Except.ok st
  writeCell := fun st _ _ _ _ => Except.ok st
  readCell := fun st _ _ _ => Except.ok (st, PyVal.num 2)
  closeBook := fun st => st

/-- Environment for the C6 witness: component A's workbook file is
missing, everything else succeeds. -/
def env_missingA : XwEnv Unit where
  file_exists := fun f => !(f == "flap_margin_calc.xlsx")
  openBook := fun st _ => Except.ok st
  writeCell := fun st _ _ _ _ => Except.ok st
  readCell := fun st _ _ _ => Except.ok (st, PyVal.num 2)
  closeBook := fun st => st

/-- Registry entry used by the C6 scenarios, component A. -/
def cfg_a : ExcelConfig :=
  { driver := "excel_simple", filename := "flap_margin_calc.xlsx",
    sheet := "Inputs", inputs := [("Fx", "B2")], output_rf := "B5" }

/-- Registry entry used by the C6 scenarios, component B. -/
def cfg_b : ExcelConfig :=
  { driver := "excel_simple", filename := "rib_margin_calc.xlsx",
    sheet := "Inputs", inputs := [("Fx", "B2")], output_rf := "B5" }

/-- Two-component registry for the C6 scenarios. -/
def demo_registry : List (String × ExcelConfig) :=
  [("Comp_A", cfg_a), ("Comp_B", cfg_b)]

/-- A one-load-case payload for the C6 scenarios. -/
def comp_data_demo : CompData :=
  { Forces := some [(1, Entry.val [("Fx", 10)])] }

/-- A Python value as the organizer sees it: nested dicts with scalar
leaves. -/
inductive Obj where
  | dict (entries : List (String × Obj))
  | num (q : ℚ)
  | str (s : String)

/-- Python falsiness (`if not data`) for the values the organizer
iterates over. -/
def Obj.isFalsy : Obj → Bool
  | Obj.dict l => l.isEmpty
  | Obj.num q => q == 0
  | Obj.str s => s.isEmpty

/-- The name-pattern heuristic of `organize_results_into_chapters`'s
flat branch: first matching keyword group wins, else the default
chapter. -/
def chapter_of (comp_name : String) : String :=
  let n := strLower comp_name
  if strContains n "skin" || strContains n "panel" then "Skin Panels"
  else if strContains n "rib" then "Rib Structure"
  else if strContains n "spar" || strContains n "web" then "Spars & Webs"
  else if strContains n "clip" || strContains n "splice" || strContains n "joint" then
    "Fittings & Joints"
  else if strContains n "stringer" || strContains n "stiffener" then "Stringers & Stiffeners"
  else "Miscellaneous Components"

/-- `structured_report.setdefault(chapter, {})[comp_name] = data`:
append the component to its chapter, creating the chapter at the end on
first use (Python dict insertion order). -/
def addToChapter : List (String × List (String × Obj)) → String → String → Obj →
    List (String × List (String × Obj))
  | [], ch, n, d => [(ch, [(n, d)])]
  | (c, ms) :: rest, ch, n, d =>
    if c = ch then (c, ms ++ [(n, d)]) :: rest
    else (c, ms) :: addToChapter rest ch n d

/-- The flat branch's grouping loop: skip falsy data, bucket everything
else by `chapter_of`. -/
def groupComponents (raw : List (String × Obj)) : List (String × List (String × Obj)) :=
  raw.foldl
    (fun acc p => if p.2.isFalsy then acc else addToChapter acc (chapter_of p.1) p.1 p.2) []

/-- Ordering of chapter entries by title, as `dict(sorted(...))`
compares the items of a dict with distinct keys. -/
def keyLe (a b : String × Obj) : Prop := a.1 ≤ b.1

instance : DecidableRel keyLe := fun a b => inferInstanceAs (Decidable (a.1 ≤ b.1))

instance : IsTotal (String × Obj) keyLe := ⟨fun a b => le_total a.1 b.1⟩

instance : IsTrans (String × Obj) keyLe := ⟨fun _ _ _ => le_trans⟩

/-- `organize_results_into_chapters` of `result_organizer.py`: rename
the trusted `Elements`/`Freebodies` tags when present, otherwise group
by the name-pattern heuristic and sort chapters alphabetically. -/
def organize (raw : List (String × Obj)) : List (String × Obj) :=
  if (raw.lookup "Elements").isSome || (raw.lookup "Freebodies").isSome then
    (match raw.lookup "Elements" with
     | some e => [("Structural Elements (Panels & Shells)", e)]
     | Option.none => []) ++
    (match raw.lookup "Freebodies" with
     | some f => [("Joints & Interface Loads", f)]
     | Option.none => [])
  else
    List.insertionSort keyLe ((groupComponents raw).map (fun p => (p.1, Obj.dict p.2)))

/-- A minimal tagged result set for the C9 counterexample. -/
def tagged_demo : List (String × Obj) :=
  [("Elements", Obj.dict [("CompA", Obj.str "result")])]

/-- A tagged result set with both buckets, for the C9 witness. -/
def tagged_demo2 : List (String × Obj) :=
  [("Elements", Obj.dict [("CompA", Obj.str "result")]),
   ("Freebodies", Obj.dict [("CompB", Obj.str "result")])]

/-! ## Lemmas and theorems -/

lemma resultsOf_lookup_not_mem {α : Type} (g : α → List (String × PyVal))
    {d : List (ℕ × Entry α)} {lc : ℕ} (h : lc ∉ d.map Prod.fst) :
    (resultsOf g d).lookup lc = Option.none := by
  induction d with
  | nil => rfl
  | cons p rest ih =>
    obtain ⟨k, e⟩ := p
    simp only [List.map_cons, List.mem_cons, not_or] at h
    obtain ⟨h1, h2⟩ := h
    cases e with
    | err s =>
      simpa only [resultsOf, List.filterMap_cons] using ih h2
    | val a =>
      have hbeq : (lc == k) = false := beq_eq_false_iff_ne.mpr h1
      simp only [resultsOf, List.filterMap_cons, List.lookup, hbeq] at ih ⊢
      exact ih h2

lemma resultsOf_lookup_val {α : Type} (g : α → List (String × PyVal))
    {d : List (ℕ × Entry α)} {lc : ℕ} {a : α}
    (hnd : (d.map Prod.fst).Nodup) (h : (lc, Entry.val a) ∈ d) :
    (resultsOf g d).lookup lc = some (g a) := by
  induction d with
  | nil => cases h
  | cons p rest ih =>
    obtain ⟨k, e⟩ := p
    simp only [List.map_cons, List.nodup_cons] at hnd
    obtain ⟨hk, hnd'⟩ := hnd
    rcases List.mem_cons.mp h with heq | htail
    · obtain ⟨rfl, rfl⟩ := Prod.mk.injEq .. ▸ And.intro (congrArg Prod.fst heq) (congrArg Prod.snd heq)
      simp only [resultsOf, List.filterMap_cons, List.lookup, beq_self_eq_true]
    · have hlc : lc ∈ rest.map Prod.fst :=
        List.mem_map_of_mem Prod.fst htail
      cases e with
      | err s =>
        simpa only [resultsOf, List.filterMap_cons] using ih hnd' htail
      | val b =>
        have hbeq : (lc == k) = false :=
          beq_eq_false_iff_ne.mpr (fun hlk : lc = k => hk (hlk ▸ hlc))
        simp only [resultsOf, List.filterMap_cons, List.lookup, hbeq]
        exact ih hnd' htail

lemma resultsOf_lookup_err {α : Type} (g : α → List (String × PyVal))
    {d : List (ℕ × Entry α)} {lc : ℕ} {s : String}
    (hnd : (d.map Prod.fst).Nodup) (h : (lc, Entry.err s) ∈ d) :
    (resultsOf g d).lookup lc = Option.none := by
  induction d with
  | nil => cases h
  | cons p rest ih =>
    obtain ⟨k, e⟩ := p
    simp only [List.map_cons, List.nodup_cons] at hnd
    obtain ⟨hk, hnd'⟩ := hnd
    rcases List.mem_cons.mp h with heq | htail
    · obtain ⟨rfl, rfl⟩ := Prod.mk.injEq .. ▸ And.intro (congrArg Prod.fst heq) (congrArg Prod.snd heq)
      simp only [resultsOf, List.filterMap_cons]
      exact resultsOf_lookup_not_mem g hk
    · have hlc : lc ∈ rest.map Prod.fst :=
        List.mem_map_of_mem Prod.fst htail
      cases e with
      | err s' =>
        simpa only [resultsOf, List.filterMap_cons] using ih hnd' htail
      | val b =>
        have hbeq : (lc == k) = false :=
          beq_eq_false_iff_ne.mpr (fun hlk : lc = k => hk (hlk ▸ hlc))
        simp only [resultsOf, List.filterMap_cons, List.lookup, hbeq]
        exact ih hnd' htail

/-- Claim C2: for every panel load case with numeric data, with
`fx = |Fx|`, `fxy = |Fxy|` and positive allowables `a_c` and `a_s`,
`calculate_panel_margins` records `reserve_factor =
min(a_c/fx, a_s/fxy)` rounded to 2 decimal places (with 99.99
substituted for any term whose denominator is ≤ 1e-6), and
`failure_mode` is the label of the term that produced the minimum, with
that mode's applied load and allowable recorded as
`Applied_Load`/`Allowable`. -/
theorem C2_panel_margin_formula (name : String)
    (dict : List (ℕ × Entry PanelForces)) (lc : ℕ) (f : PanelForces)
    (hnd : (dict.map Prod.fst).Nodup) (hmem : (lc, Entry.val f) ∈ dict)
    (hc : 0 < panel_allow_comp name) (hs : 0 < panel_allow_shear name) :
    ∃ rec, (calculate_panel_margins name dict).lookup lc = some rec ∧
      rec.lookup "RF" = some (PyVal.num (round2 (min
        (if |f.Fx_Nmm.getD 0| > eps then panel_allow_comp name / |f.Fx_Nmm.getD 0| else sentinel)
        (if |f.Fxy_Nmm.getD 0| > eps then panel_allow_shear name / |f.Fxy_Nmm.getD 0| else sentinel)))) ∧
      ((rec.lookup "Failure_Mode" = some (PyVal.str "Compression") ∧
        (if |f.Fx_Nmm.getD 0| > eps then panel_allow_comp name / |f.Fx_Nmm.getD 0| else sentinel) ≤
          (if |f.Fxy_Nmm.getD 0| > eps then panel_allow_shear name / |f.Fxy_Nmm.getD 0| else sentinel) ∧
        rec.lookup "Applied_Load" = some (PyVal.num (round2 |f.Fx_Nmm.getD 0|)) ∧
        rec.lookup "Allowable" = some (PyVal.num (panel_allow_comp name))) ∨
       (rec.lookup "Failure_Mode" = some (PyVal.str "Shear") ∧
        (if |f.Fxy_Nmm.getD 0| > eps then panel_allow_shear name / |f.Fxy_Nmm.getD 0| else sentinel) ≤
          (if |f.Fx_Nmm.getD 0| > eps then panel_allow_comp name / |f.Fx_Nmm.getD 0| else sentinel) ∧
        rec.lookup "Applied_Load" = some (PyVal.num (round2 |f.Fxy_Nmm.getD 0|)) ∧
        rec.lookup "Allowable" = some (PyVal.num (panel_allow_shear name)))) := by
  refine ⟨_, resultsOf_lookup_val _ hnd hmem, ?_, ?_⟩
  · rw [calculate_panel_case]
    simp only [guarded_rf]
    rcases lt_or_ge
      (if |f.Fx_Nmm.getD 0| > eps then panel_allow_comp name / |f.Fx_Nmm.getD 0| else sentinel)
      (if |f.Fxy_Nmm.getD 0| > eps then panel_allow_shear name / |f.Fxy_Nmm.getD 0| else sentinel)
      with hlt | hge
    · rw [if_pos hlt]
      simp [List.lookup, min_eq_left hlt.le]
    · rw [if_neg (not_lt.mpr hge)]
      simp [List.lookup, min_eq_right hge]
  · rw [calculate_panel_case]
    simp only [guarded_rf]
    rcases lt_or_ge
      (if |f.Fx_Nmm.getD 0| > eps then panel_allow_comp name / |f.Fx_Nmm.getD 0| else sentinel)
      (if |f.Fxy_Nmm.getD 0| > eps then panel_allow_shear name / |f.Fxy_Nmm.getD 0| else sentinel)
      with hlt | hge
    · rw [if_pos hlt]
      exact Or.inl ⟨by simp [List.lookup], hlt.le, by simp [List.lookup], by simp [List.lookup]⟩
    · rw [if_neg (not_lt.mpr hge)]
      exact Or.inr ⟨by simp [List.lookup], hge, by simp [List.lookup], by simp [List.lookup]⟩

/-- Witness for C2 (Scenario A of the spec): panel `Upper_Skin_Panel`
with `Fx = 50`, `Fxy = 200` and allowables 150/150 gives `rf_comp = 3`,
`rf_shear = 0.75`, governed by Shear. -/
theorem C2_panel_margin_formula_witness :
    ∃ rec, (calculate_panel_margins "Upper_Skin_Panel"
        [(1, Entry.val ⟨some 50, some 200⟩)]).lookup 1 = some rec ∧
      rec.lookup "RF" = some (PyVal.num (round2 (min
        (if |(⟨some 50, some 200⟩ : PanelForces).Fx_Nmm.getD 0| > eps then
          panel_allow_comp "Upper_Skin_Panel" / |(⟨some 50, some 200⟩ : PanelForces).Fx_Nmm.getD 0| else sentinel)
        (if |(⟨some 50, some 200⟩ : PanelForces).Fxy_Nmm.getD 0| > eps then
          panel_allow_shear "Upper_Skin_Panel" / |(⟨some 50, some 200⟩ : PanelForces).Fxy_Nmm.getD 0| else sentinel)))) ∧
      ((rec.lookup "Failure_Mode" = some (PyVal.str "Compression") ∧
        (if |(⟨some 50, some 200⟩ : PanelForces).Fx_Nmm.getD 0| > eps then
          panel_allow_comp "Upper_Skin_Panel" / |(⟨some 50, some 200⟩ : PanelForces).Fx_Nmm.getD 0| else sentinel) ≤
          (if |(⟨some 50, some 200⟩ : PanelForces).Fxy_Nmm.getD 0| > eps then
            panel_allow_shear "Upper_Skin_Panel" / |(⟨some 50, some 200⟩ : PanelForces).Fxy_Nmm.getD 0| else sentinel) ∧
        rec.lookup "Applied_Load" = some (PyVal.num (round2 |(⟨some 50, some 200⟩ : PanelForces).Fx_Nmm.getD 0|)) ∧
        rec.lookup "Allowable" = some (PyVal.num (panel_allow_comp "Upper_Skin_Panel"))) ∨
       (rec.lookup "Failure_Mode" = some (PyVal.str "Shear") ∧
        (if |(⟨some 50, some 200⟩ : PanelForces).Fxy_Nmm.getD 0| > eps then
          panel_allow_shear "Upper_Skin_Panel" / |(⟨some 50, some 200⟩ : PanelForces).Fxy_Nmm.getD 0| else sentinel) ≤
          (if |(⟨some 50, some 200⟩ : PanelForces).Fx_Nmm.getD 0| > eps then
            panel_allow_comp "Upper_Skin_Panel" / |(⟨some 50, some 200⟩ : PanelForces).Fx_Nmm.getD 0| else sentinel) ∧
        rec.lookup "Applied_Load" = some (PyVal.num (round2 |(⟨some 50, some 200⟩ : PanelForces).Fxy_Nmm.getD 0|)) ∧
        rec.lookup "Allowable" = some (PyVal.num (panel_allow_shear "Upper_Skin_Panel")))) :=
  C2_panel_margin_formula "Upper_Skin_Panel" [(1, Entry.val ⟨some 50, some 200⟩)] 1
    ⟨some 50, some 200⟩ (by decide) (by decide)
    (by decide) (by decide)

/-- Claim C3: for every joint load case with numeric data,
`calculate_joint_margins` sets the applied load to the Euclidean norm
`r` of `(Fx, Fy, Fz)`, sets `reserve_factor = allowable/r` if
`r > 1e-6` else 99.99 (rounded to 2 decimals), and sets `failure_mode`
to the fixed string "Resultant Shear". -/
theorem C3_joint_margin_formula (name : String)
    (dict : List (ℕ × Entry JointForces)) (res : JointForces → ℚ)
    (lc : ℕ) (f : JointForces)
    (hnd : (dict.map Prod.fst).Nodup) (hmem : (lc, Entry.val f) ∈ dict)
    (hres : isResultant f (res f)) :
    ∃ rec, (calculate_joint_margins name dict res).lookup lc = some rec ∧
      rec.lookup "Applied_Load" = some (PyVal.num (round2 (res f))) ∧
      rec.lookup "RF" = some (PyVal.num (round2
        (if res f > eps then joint_allowable_shear name / res f else sentinel))) ∧
      rec.lookup "Failure_Mode" = some (PyVal.str "Resultant Shear") := by
  refine ⟨_, resultsOf_lookup_val _ hnd hmem, ?_, ?_, ?_⟩ <;>
    simp [calculate_joint_case, guarded_rf, List.lookup]

/-- Witness for C3 (Scenario B of the spec, scaled): joint
`Front_Spar_Splice` with loads `(3, 4, 0)` has resultant 5. -/
theorem C3_joint_margin_formula_witness :
    isResultant ⟨some 3, some 4, some 0⟩
      ((fun _ => (5 : ℚ)) (⟨some 3, some 4, some 0⟩ : JointForces)) ∧
    (∃ rec, (calculate_joint_margins "Front_Spar_Splice"
        [(7, Entry.val ⟨some 3, some 4, some 0⟩)] (fun _ => 5)).lookup 7 = some rec ∧
      rec.lookup "Applied_Load" = some (PyVal.num (round2 ((fun _ => (5:ℚ)) (⟨some 3, some 4, some 0⟩ : JointForces)))) ∧
      rec.lookup "RF" = some (PyVal.num (round2
        (if (fun _ => (5:ℚ)) (⟨some 3, some 4, some 0⟩ : JointForces) > eps then
          joint_allowable_shear "Front_Spar_Splice" / (fun _ => (5:ℚ)) (⟨some 3, some 4, some 0⟩ : JointForces)
         else sentinel))) ∧
      rec.lookup "Failure_Mode" = some (PyVal.str "Resultant Shear")) :=
  ⟨by constructor <;> norm_num [sq_resultant],
   C3_joint_margin_formula "Front_Spar_Splice" [(7, Entry.val ⟨some 3, some 4, some 0⟩)]
    (fun _ => 5) 7 ⟨some 3, some 4, some 0⟩ (by decide) (by decide)
    (by constructor <;> norm_num [sq_resultant])⟩

/-- Claim C10: in `calculate_panel_margins`, when `rf_comp` and
`rf_shear` are exactly equal (including the zero-load case where both
are 99.99), the tie is resolved in favor of Shear: `failure_mode` is
"Shear" and `Applied_Load`/`Allowable` are taken from the shear term. -/
theorem C10_tie_prefers_shear (name : String)
    (dict : List (ℕ × Entry PanelForces)) (lc : ℕ) (f : PanelForces)
    (hnd : (dict.map Prod.fst).Nodup) (hmem : (lc, Entry.val f) ∈ dict)
    (htie : guarded_rf (panel_allow_comp name) |f.Fx_Nmm.getD 0| =
            guarded_rf (panel_allow_shear name) |f.Fxy_Nmm.getD 0|) :
    ∃ rec, (calculate_panel_margins name dict).lookup lc = some rec ∧
      rec.lookup "Failure_Mode" = some (PyVal.str "Shear") ∧
      rec.lookup "Applied_Load" = some (PyVal.num (round2 |f.Fxy_Nmm.getD 0|)) ∧
      rec.lookup "Allowable" = some (PyVal.num (panel_allow_shear name)) := by
  refine ⟨_, resultsOf_lookup_val _ hnd hmem, ?_⟩
  rw [calculate_panel_case]
  simp only [guarded_rf] at htie ⊢
  rw [if_neg (by rw [htie]; exact lt_irrefl _)]
  refine ⟨by simp [List.lookup], by simp [List.lookup], by simp [List.lookup]⟩

/-- Witness for C10: the zero-load tie (`Fx = Fxy = 0`, both reserve
factors 99.99) is resolved as Shear. -/
theorem C10_tie_prefers_shear_witness :
    guarded_rf (panel_allow_comp "Upper_Skin_Panel") |(⟨some 0, some 0⟩ : PanelForces).Fx_Nmm.getD 0| =
      guarded_rf (panel_allow_shear "Upper_Skin_Panel") |(⟨some 0, some 0⟩ : PanelForces).Fxy_Nmm.getD 0| ∧
    (∃ rec, (calculate_panel_margins "Upper_Skin_Panel"
        [(1, Entry.val ⟨some 0, some 0⟩)]).lookup 1 = some rec ∧
      rec.lookup "Failure_Mode" = some (PyVal.str "Shear") ∧
      rec.lookup "Applied_Load" = some (PyVal.num (round2 |(⟨some 0, some 0⟩ : PanelForces).Fxy_Nmm.getD 0|)) ∧
      rec.lookup "Allowable" = some (PyVal.num (panel_allow_shear "Upper_Skin_Panel"))) :=
  ⟨by norm_num [guarded_rf, eps],
   C10_tie_prefers_shear "Upper_Skin_Panel" [(1, Entry.val ⟨some 0, some 0⟩)] 1
    ⟨some 0, some 0⟩ (by decide) (by decide) (by norm_num [guarded_rf, eps])⟩

/-- Claim C7: for every load case whose record is an error marker (a
string instead of numeric data), both native margin functions skip that
load case silently: the returned result mapping contains no entry for
it, and (the functions being total) no exception is raised. -/
theorem C7_error_markers_skipped :
    (∀ (name : String) (dict : List (ℕ × Entry PanelForces)) (lc : ℕ) (s : String),
      (dict.map Prod.fst).Nodup → (lc, Entry.err s) ∈ dict →
      (calculate_panel_margins name dict).lookup lc = Option.none) ∧
    (∀ (name : String) (dict : List (ℕ × Entry JointForces)) (res : JointForces → ℚ)
      (lc : ℕ) (s : String),
      (dict.map Prod.fst).Nodup → (lc, Entry.err s) ∈ dict →
      (calculate_joint_margins name dict res).lookup lc = Option.none) := by
  constructor
  · intro name dict lc s hnd hmem
    exact resultsOf_lookup_err _ hnd hmem
  · intro name dict res lc s hnd hmem
    exact resultsOf_lookup_err _ hnd hmem

/-- Witness for C7: a dict holding an error marker for load case 1 and
numeric data for load case 2 produces no result for load case 1, in both
calculators. -/
theorem C7_error_markers_skipped_witness :
    (calculate_panel_margins "Upper_Skin_Panel"
      [(1, Entry.err "LC 1 not found in results"), (2, Entry.val ⟨some 10, some 10⟩)]).lookup 1
      = Option.none ∧
    (calculate_joint_margins "Front_Spar_Splice"
      [(1, Entry.err "LC 1 not found in results"), (2, Entry.val ⟨some 3, some 4, some 0⟩)]
      (fun _ => 5)).lookup 1 = Option.none :=
  ⟨C7_error_markers_skipped.1 "Upper_Skin_Panel" _ 1 "LC 1 not found in results"
      (by decide) (by decide),
   C7_error_markers_skipped.2 "Front_Spar_Splice" _ (fun _ => 5) 1 "LC 1 not found in results"
      (by decide) (by decide)⟩

lemma round2_sentinel : round2 sentinel = sentinel := by
  norm_num [round2, round_eq, sentinel]

lemma round2_ge_one {q : ℚ} (h : 1 ≤ q) : 1 ≤ round2 q := by
  have h2 : (100 : ℤ) ≤ round (q * 100) := by
    rw [round_eq]
    exact Int.le_floor.mpr (by push_cast; linarith)
  have h3 : (100 : ℚ) ≤ (round (q * 100) : ℤ) := by exact_mod_cast h2
  rw [round2]
  rw [one_le_div (by norm_num : (0 : ℚ) < 100)]
  exact h3

lemma joint_allowable_shear_ge_150 (name : String) :
    150 ≤ joint_allowable_shear name := by
  unfold joint_allowable_shear joint_allowables ALLOWABLES
  simp only [List.lookup]
  repeat' split <;> try decide

/-- Counterexample to claim C4: a joint load case whose components are
all of magnitude ≤ 1e-6 (namely `(0.5e-6, 1e-6, 1e-6)`) has resultant
`1.5e-6 > 1e-6`, so the division guard does not fire and the recorded
reserve factor is `25000 / 1.5e-6` rounded — not the 99.99 sentinel the
claim promises for such inputs. -/
theorem C4_counterexample :
    |((⟨some (1/2000000), some (1/1000000), some (1/1000000)⟩ : JointForces)).Fx.getD 0| ≤ eps ∧
    |((⟨some (1/2000000), some (1/1000000), some (1/1000000)⟩ : JointForces)).Fy.getD 0| ≤ eps ∧
    |((⟨some (1/2000000), some (1/1000000), some (1/1000000)⟩ : JointForces)).Fz.getD 0| ≤ eps ∧
    isResultant ⟨some (1/2000000), some (1/1000000), some (1/1000000)⟩ (3/2000000) ∧
    (calculate_joint_margins "Generic_Fitting"
        [(1, Entry.val ⟨some (1/2000000), some (1/1000000), some (1/1000000)⟩)]
        (fun _ => 3/2000000)).lookup 1
      = some (calculate_joint_case 25000 (3/2000000)) ∧
    (calculate_joint_case 25000 (3/2000000)).lookup "RF"
      = some (PyVal.num (1666666666667/100)) ∧
    (1666666666667/100 : ℚ) ≠ sentinel := by
  refine ⟨by norm_num [eps, abs_le], by norm_num [eps, abs_le], by norm_num [eps, abs_le],
    ⟨by norm_num, by norm_num [sq_resultant]⟩, ?_, ?_, by norm_num [sentinel]⟩
  · simp [calculate_joint_margins, resultsOf, List.lookup, joint_allowable_shear,
      joint_allowables, ALLOWABLES, strContains]
  · simp [calculate_joint_case, guarded_rf, List.lookup, eps, sentinel]
    norm_num [round2, round_eq]

/-- Claim C4, amended: a near-zero input never divides and never
produces a FAIL-range reserve factor, but the sentinel is governed by
the guard's own denominator.  For panels, `|Fx| ≤ 1e-6` and
`|Fxy| ≤ 1e-6` do give the 99.99 sentinel.  For joints the guard tests
the resultant: with every component ≤ 1e-6 the recorded reserve factor
is ≥ 1 (PASS-range), and it is the 99.99 sentinel exactly when the
resultant itself is ≤ 1e-6 — which components of magnitude up to 1e-6
can exceed. -/
theorem C4_near_zero_guard :
    (∀ (allow_comp allow_shear : ℚ) (f : PanelForces),
      |f.Fx_Nmm.getD 0| ≤ eps → |f.Fxy_Nmm.getD 0| ≤ eps →
      (calculate_panel_case allow_comp allow_shear f).lookup "RF"
        = some (PyVal.num sentinel) ∧ (1 : ℚ) ≤ sentinel) ∧
    (∀ (name : String) (f : JointForces) (r : ℚ),
      isResultant f r →
      |f.Fx.getD 0| ≤ eps → |f.Fy.getD 0| ≤ eps → |f.Fz.getD 0| ≤ eps →
      ∃ v, (calculate_joint_case (joint_allowable_shear name) r).lookup "RF"
          = some (PyVal.num v) ∧ 1 ≤ v ∧ (r ≤ eps → v = sentinel)) := by
  constructor
  · intro allow_comp allow_shear f hfx hfxy
    refine ⟨?_, by norm_num [sentinel]⟩
    rw [calculate_panel_case]
    simp only [guarded_rf]
    rw [if_neg (not_lt.mpr hfx), if_neg (not_lt.mpr hfxy), if_neg (lt_irrefl _)]
    simp [List.lookup, round2_sentinel]
  · intro name f r hres hx hy hz
    refine ⟨round2 (guarded_rf (joint_allowable_shear name) r), ?_, ?_, ?_⟩
    · simp [calculate_joint_case, List.lookup]
    · rcases le_or_lt r eps with hr | hr
      · rw [guarded_rf, if_neg (not_lt.mpr hr), round2_sentinel]
        norm_num [sentinel]
      · rw [guarded_rf, if_pos hr]
        apply round2_ge_one
        have hr0 : 0 < r := lt_trans (by norm_num [eps]) hr
        rw [one_le_div hr0]
        have hsq : r ^ 2 ≤ 3 * eps ^ 2 := by
          rw [hres.2, sq_resultant]
          have e1 : (f.Fx.getD 0) ^ 2 ≤ eps ^ 2 := by
            rw [← sq_abs]
            exact pow_le_pow_left (abs_nonneg _) hx 2
          have e2 : (f.Fy.getD 0) ^ 2 ≤ eps ^ 2 := by
            rw [← sq_abs]
            exact pow_le_pow_left (abs_nonneg _) hy 2
          have e3 : (f.Fz.getD 0) ^ 2 ≤ eps ^ 2 := by
            rw [← sq_abs]
            exact pow_le_pow_left (abs_nonneg _) hz 2
          linarith
        have hr1 : r ≤ 1 := by
          by_contra hgt
          push_neg at hgt
          have : (1 : ℚ) < r ^ 2 := by nlinarith
          have : (3 : ℚ) * eps ^ 2 < 1 := by norm_num [eps]
          linarith
        linarith [joint_allowable_shear_ge_150 name]
    · intro hr
      rw [guarded_rf, if_neg (not_lt.mpr hr), round2_sentinel]

/-- Witness for C4 (amended): the exact zero-load panel and joint cases
(Scenario C of the spec). -/
theorem C4_near_zero_guard_witness :
    (|((⟨some 0, some 0⟩ : PanelForces)).Fx_Nmm.getD 0| ≤ eps ∧
     ((calculate_panel_case 150 150 ⟨some 0, some 0⟩).lookup "RF"
        = some (PyVal.num sentinel) ∧ (1 : ℚ) ≤ sentinel)) ∧
    (isResultant ⟨some 0, some 0, some 0⟩ 0 ∧
     (∃ v, (calculate_joint_case (joint_allowable_shear "Generic_Fitting") 0).lookup "RF"
        = some (PyVal.num v) ∧ 1 ≤ v ∧ ((0:ℚ) ≤ eps → v = sentinel))) :=
  ⟨⟨by norm_num [eps],
    C4_near_zero_guard.1 150 150 ⟨some 0, some 0⟩ (by norm_num [eps]) (by norm_num [eps])⟩,
   ⟨⟨le_refl 0, by norm_num [sq_resultant]⟩,
    C4_near_zero_guard.2 "Generic_Fitting" ⟨some 0, some 0, some 0⟩ 0
      ⟨le_refl 0, by norm_num [sq_resultant]⟩
      (by norm_num [eps]) (by norm_num [eps]) (by norm_num [eps])⟩⟩

lemma lookup_eq_none_cons {α : Type} {a : String × α} {rest : List (String × α)}
    {name : String} (h : List.lookup name (a :: rest) = Option.none) :
    List.lookup name rest = Option.none ∧ (name == a.1) = false := by
  obtain ⟨k, v⟩ := a
  by_cases hk : (name == k) = true
  · rw [List.lookup, hk] at h
    cases h
  · rw [Bool.not_eq_true] at hk
    rw [List.lookup, hk] at h
    exact ⟨h, hk⟩

/-- Counterexample to claim C5: the native calculators' allowable lookup
is not the exact-then-case-insensitive-substring-over-registry-keys
procedure.  For the name "My_Rib", no `ALLOWABLES` key matches under
that procedure (`find_registry_config`, which is that procedure, returns
`none`), yet `calculate_panel_margins`' lookup resolves it to the
`Intermediate_Ribs` entry through its hardcoded `"Rib"` test; and the
hardcoded test is case-sensitive, so "my_rib" falls through to the
generic 100/100 default instead. -/
theorem C5_counterexample :
    find_registry_config "My_Rib" ALLOWABLES = Option.none ∧
    panel_allowables "My_Rib" = [("Shear", 250), ("Compression", 250)] ∧
    panel_allowables "my_rib" = [("Shear", 100), ("Compression", 100)] := by
  refine ⟨by decide, by decide, by decide⟩

/-- Claim C5, amended: the Excel registry lookup
(`find_registry_config`) does resolve as claimed — exact key first,
otherwise the first declared key whose lowercased pattern occurs inside
the lowercased name — and, being a pure function, deterministically.
The native calculators' lookup instead tries the exact key in
`ALLOWABLES` and then hardcoded case-sensitive substring tests ("Rib"
then "Box" for panels, "Clip" then "Spar" for joints) with fixed
fallback configs. -/
theorem C5_name_resolution :
    (∀ (α : Type) (registry : List (String × α)) (name : String) (c : α),
      registry.lookup name = some c →
      find_registry_config name registry = some c) ∧
    (∀ (α : Type) (pre post : List (String × α)) (k : String) (c : α) (name : String),
      (pre ++ (k, c) :: post).lookup name = Option.none →
      (∀ p ∈ pre, strContains (strLower name) (strLower p.1) = false) →
      strContains (strLower name) (strLower k) = true →
      find_registry_config name (pre ++ (k, c) :: post) = some c) ∧
    (∀ name : String, ALLOWABLES.lookup name = Option.none →
      panel_allowables name =
        (if strContains name "Rib" then [("Shear", 250), ("Compression", 250)]
         else if strContains name "Box" then [("Shear", 500), ("Compression", 500)]
         else [("Shear", 100), ("Compression", 100)])) ∧
    (∀ name : String, ALLOWABLES.lookup name = Option.none →
      joint_allowables name =
        (if strContains name "Clip" then [("Shear", 50000), ("Bearing", 75000)]
         else if strContains name "Spar" then [("Shear", 50000), ("Bearing", 75000)]
         else [("Shear", 25000)])) := by
  refine ⟨?_, ?_, ?_, ?_⟩
  · intro α registry name c h
    rw [find_registry_config, h]
    rfl
  · intro α pre post k c name hnone hpre hk
    rw [find_registry_config, hnone]
    induction pre with
    | nil =>
      simp only [Option.none_orElse, List.nil_append, List.find?_cons, hk]
      rfl
    | cons p rest ih =>
      have h1 := lookup_eq_none_cons (List.cons_append .. ▸ hnone)
      have hp : strContains (strLower name) (strLower p.1) = false :=
        hpre p (List.mem_cons_self p rest)
      have := ih h1.1 (fun q hq => hpre q (List.mem_cons_of_mem p hq))
      simpa only [Option.none_orElse, List.cons_append, List.find?_cons, hp] using this
  · intro name h
    simp only [panel_allowables, h, Option.getD_none, List.isEmpty_nil, if_true]
    repeat' split <;> try decide
  · intro name h
    simp only [joint_allowables, h, Option.getD_none, List.isEmpty_nil, if_true]
    repeat' split <;> try decide

/-- Witness for C5 (amended): exact match on "Upper_Skin_Panel";
first-declared substring win resolving "My_Intermediate_Ribs" past the
first key; the hardcoded native fallbacks at "My_Rib" and
"Generic_Fitting". -/
theorem C5_name_resolution_witness :
    find_registry_config "Upper_Skin_Panel" ALLOWABLES
      = some [("Shear", (150:ℚ)), ("Compression", 150)] ∧
    find_registry_config "My_Intermediate_Ribs"
      ([("Upper_Skin_Panel", [("Shear", (150:ℚ)), ("Compression", 150)])] ++
        ("Intermediate_Ribs", [("Shear", 250), ("Compression", 250)]) ::
        [("Default_Joint", [("Shear", 25000)])])
      = some [("Shear", 250), ("Compression", 250)] ∧
    panel_allowables "My_Rib" =
      (if strContains "My_Rib" "Rib" then [("Shear", 250), ("Compression", 250)]
       else if strContains "My_Rib" "Box" then [("Shear", 500), ("Compression", 500)]
       else [("Shear", 100), ("Compression", 100)]) ∧
    joint_allowables "Generic_Fitting" =
      (if strContains "Generic_Fitting" "Clip" then [("Shear", 50000), ("Bearing", 75000)]
       else if strContains "Generic_Fitting" "Spar" then [("Shear", 50000), ("Bearing", 75000)]
       else [("Shear", 25000)]) :=
  ⟨C5_name_resolution.1 _ ALLOWABLES "Upper_Skin_Panel" _ (by decide),
   C5_name_resolution.2.1 _ [("Upper_Skin_Panel", [("Shear", (150:ℚ)), ("Compression", 150)])]
     [("Default_Joint", [("Shear", 25000)])] "Intermediate_Ribs"
     [("Shear", 250), ("Compression", 250)] "My_Intermediate_Ribs"
     (by decide) (by decide) (by decide),
   C5_name_resolution.2.2.1 "My_Rib" (by decide),
   C5_name_resolution.2.2.2 "Generic_Fitting" (by decide)⟩

/-- Counterexample to claim C1: a `MarginResult` produced by the native
panel backend carries no status field at all (no "Status" key in the
record), and the Excel master driver reports "FAIL" at a summary
reserve factor of exactly 1.0 even though `1.0 < 1.0` is false. -/
theorem C1_counterexample :
    (calculate_panel_margins "Upper_Skin_Panel"
        [(1, Entry.val ⟨some 50, some 200⟩)]).lookup 1
      = some (calculate_panel_case 150 150 ⟨some 50, some 200⟩) ∧
    (calculate_panel_case 150 150 ⟨some 50, some 200⟩).lookup "Status" = Option.none ∧
    (excel_master_case (PyVal.num 1) PyVal.none).lookup "Status"
      = some (PyVal.str "FAIL") ∧
    ¬ ((1 : ℚ) < 1) := by
  refine ⟨?_, ?_, by decide, by norm_num⟩
  · have h := @resultsOf_lookup_val PanelForces
      (calculate_panel_case (panel_allow_comp "Upper_Skin_Panel")
        (panel_allow_shear "Upper_Skin_Panel"))
      [(1, Entry.val (⟨some 50, some 200⟩ : PanelForces))]
      1 ⟨some 50, some 200⟩ (by decide) (by decide)
    rw [calculate_panel_margins]
    rw [h]
    have hc : panel_allow_comp "Upper_Skin_Panel" = 150 := by decide
    have hs : panel_allow_shear "Upper_Skin_Panel" = 150 := by decide
    rw [hc, hs]
  · rw [calculate_panel_case]
    split <;> rfl

/-- Claim C1, amended: the native calculators' result records carry no
status field at all (a PASS/FAIL verdict is recomputed downstream from
`RF`).  The Excel simple driver satisfies the claimed invariant on
numeric reserve factors — `Status = "FAIL"` iff the read value is a
number `< 1.0` — while the Excel master driver reports "FAIL" iff the
summary value is not a number strictly greater than 1.0, so a reserve
factor of exactly 1.0 is reported as FAIL there. -/
theorem C1_status_by_backend :
    (∀ (allow_comp allow_shear : ℚ) (f : PanelForces),
      (calculate_panel_case allow_comp allow_shear f).lookup "Status" = Option.none) ∧
    (∀ allowable_shear r : ℚ,
      (calculate_joint_case allowable_shear r).lookup "Status" = Option.none) ∧
    (∀ rf : PyVal,
      ((excel_simple_case rf).lookup "Status" = some (PyVal.str "FAIL") ↔
        ∃ q : ℚ, rf = PyVal.num q ∧ q < 1)) ∧
    (∀ min_rf location : PyVal,
      ((excel_master_case min_rf location).lookup "Status" = some (PyVal.str "FAIL") ↔
        ¬ ∃ q : ℚ, min_rf = PyVal.num q ∧ 1 < q)) := by
  refine ⟨?_, ?_, ?_, ?_⟩
  · intro allow_comp allow_shear f
    rw [calculate_panel_case]
    split <;> rfl
  · intro allowable_shear r
    rfl
  · intro rf
    cases rf with
    | num q =>
      by_cases h : q < 1 <;>
        simp [excel_simple_case, excel_simple_status, List.lookup, h]
    | str s => simp [excel_simple_case, excel_simple_status, List.lookup]
    | none => simp [excel_simple_case, excel_simple_status, List.lookup]
  · intro min_rf location
    cases min_rf with
    | num q =>
      by_cases h : 1 < q <;>
        simp [excel_master_case, excel_master_status, List.lookup, h]
    | str s => simp [excel_master_case, excel_master_status, List.lookup]
    | none => simp [excel_master_case, excel_master_status, List.lookup]

/-- Counterexample to claim C6: an exception raised while opening
component A's workbook is caught only by the run-wide handler, so the
whole run returns `{"Error": "Open failed"}` — component B's result is
lost, not "still processed". -/
theorem C6_counterexample :
    calculate_with_excel env_openFail () demo_registry
        [("Comp_A", comp_data_demo), ("Comp_B", comp_data_demo)] []
      = ExcelOutput.globalError "Open failed" := by
  rfl

/-- Claim C6, amended: only the missing-workbook-file check is isolated
per component: when component A's resolved file is absent, A degrades to
an `{"Error": "Excel file not found"}` entry and the sibling component B
is still processed from the same session state, its result unchanged.
(An exception while opening or reading instead aborts the whole run, as
the counterexample shows.) -/
theorem C6_missing_file_isolated {σ : Type} (env : XwEnv σ) (st stB : σ)
    (registry : List (String × ExcelConfig)) (A B : String) (dA dB : CompData)
    (cfgA : ExcelConfig) (entB : Option (String × CompEntry))
    (hreg : registry.isEmpty = false)
    (hA : find_registry_config A registry = some cfgA)
    (hfile : env.file_exists cfgA.filename = false)
    (hB : runComponent env registry st B dB = Except.ok (stB, entB)) :
    calculate_with_excel env st registry [(A, dA), (B, dB)] [] =
      ExcelOutput.ok ((A, CompEntry.error "Excel file not found") ::
        (match entB with | some e => [e] | Option.none => [])) [] := by
  rw [calculate_with_excel, if_neg (by rw [hreg]; exact Bool.false_ne_true)]
  have hcompA : runComponent env registry st A dA =
      Except.ok (st, some (A, CompEntry.error "Excel file not found")) := by
    rw [runComponent, hA]
    dsimp only
    rw [if_pos hfile]
  simp only [runComponents, hcompA, hB]
  cases entB <;> rfl

/-- Witness for C6 (amended): with A's workbook file missing and B's
present, the run returns A's error entry alongside B's computed
result. -/
theorem C6_missing_file_isolated_witness :
    demo_registry.isEmpty = false ∧
    find_registry_config "Comp_A" demo_registry = some cfg_a ∧
    env_missingA.file_exists cfg_a.filename = false ∧
    calculate_with_excel env_missingA () demo_registry
        [("Comp_A", comp_data_demo), ("Comp_B", comp_data_demo)] [] =
      ExcelOutput.ok [("Comp_A", CompEntry.error "Excel file not found"),
        ("Comp_B", CompEntry.cases [(1, excel_simple_case (PyVal.num 2))])] [] := by
  refine ⟨rfl, rfl, rfl, ?_⟩
  exact C6_missing_file_isolated env_missingA () () demo_registry "Comp_A" "Comp_B"
    comp_data_demo comp_data_demo cfg_a
    (some ("Comp_B", CompEntry.cases [(1, excel_simple_case (PyVal.num 2))]))
    rfl rfl rfl (by rfl)

lemma addToChapter_mem_self (acc : List (String × List (String × Obj)))
    (ch n : String) (d : Obj) :
    ∃ ms, (ch, ms) ∈ addToChapter acc ch n d ∧ (n, d) ∈ ms := by
  induction acc with
  | nil => exact ⟨[(n, d)], List.mem_singleton_self _, List.mem_singleton_self _⟩
  | cons p rest ih =>
    obtain ⟨c, ms0⟩ := p
    rw [addToChapter]
    by_cases hc : c = ch
    · rw [if_pos hc]
      exact ⟨ms0 ++ [(n, d)], hc ▸ List.mem_cons_self _ _,
        List.mem_append_right _ (List.mem_singleton_self _)⟩
    · rw [if_neg hc]
      obtain ⟨ms, hms, hnd⟩ := ih
      exact ⟨ms, List.mem_cons_of_mem _ hms, hnd⟩

lemma addToChapter_mem_mono (acc : List (String × List (String × Obj)))
    (ch n : String) (d : Obj) (c : String) (ms : List (String × Obj))
    (x : String × Obj) (h : (c, ms) ∈ acc) (hx : x ∈ ms) :
    ∃ ms', (c, ms') ∈ addToChapter acc ch n d ∧ x ∈ ms' := by
  induction acc with
  | nil => cases h
  | cons p rest ih =>
    obtain ⟨c0, ms0⟩ := p
    rw [addToChapter]
    rcases List.mem_cons.mp h with heq | htail
    · obtain ⟨rfl, rfl⟩ := Prod.mk.injEq .. ▸
        And.intro (congrArg Prod.fst heq) (congrArg Prod.snd heq)
      by_cases hc : c = ch
      · rw [if_pos hc]
        exact ⟨ms ++ [(n, d)], List.mem_cons_self _ _, List.mem_append_left _ hx⟩
      · rw [if_neg hc]
        exact ⟨ms, List.mem_cons_self _ _, hx⟩
    · by_cases hc : c0 = ch
      · rw [if_pos hc]
        exact ⟨ms, List.mem_cons_of_mem _ htail, hx⟩
      · rw [if_neg hc]
        obtain ⟨ms', hms', hx'⟩ := ih htail
        exact ⟨ms', List.mem_cons_of_mem _ hms', hx'⟩

lemma groupFold_preserve (l : List (String × Obj)) :
    ∀ (acc : List (String × List (String × Obj))) (c : String)
      (ms : List (String × Obj)) (x : String × Obj),
      (c, ms) ∈ acc → x ∈ ms →
      ∃ ms', (c, ms') ∈ l.foldl
          (fun acc p => if p.2.isFalsy then acc
            else addToChapter acc (chapter_of p.1) p.1 p.2) acc ∧ x ∈ ms' := by
  induction l with
  | nil => exact fun acc c ms x h hx => ⟨ms, h, hx⟩
  | cons p rest ih =>
    intro acc c ms x h hx
    rw [List.foldl_cons]
    by_cases hf : p.2.isFalsy
    · rw [if_pos hf]
      exact ih acc c ms x h hx
    · rw [if_neg hf]
      obtain ⟨ms1, hms1, hx1⟩ := addToChapter_mem_mono acc (chapter_of p.1) p.1 p.2 c ms x h hx
      exact ih _ c ms1 x hms1 hx1

lemma groupFold_mem (l : List (String × Obj)) :
    ∀ (acc : List (String × List (String × Obj))) (name : String) (d : Obj),
      (name, d) ∈ l → d.isFalsy = false →
      ∃ ms, (chapter_of name, ms) ∈ l.foldl
          (fun acc p => if p.2.isFalsy then acc
            else addToChapter acc (chapter_of p.1) p.1 p.2) acc ∧ (name, d) ∈ ms := by
  induction l with
  | nil => intro acc name d h; cases h
  | cons p rest ih =>
    intro acc name d h hfal
    rw [List.foldl_cons]
    rcases List.mem_cons.mp h with heq | htail
    · subst heq
      dsimp only
      rw [if_neg (by rw [hfal]; exact Bool.false_ne_true)]
      obtain ⟨ms, hms, hnd⟩ := addToChapter_mem_self acc (chapter_of name) name d
      exact groupFold_preserve rest _ (chapter_of name) ms (name, d) hms hnd
    · by_cases hf : p.2.isFalsy
      · rw [if_pos hf]
        exact ih acc name d htail hfal
      · rw [if_neg hf]
        exact ih _ name d htail hfal

/-- Counterexample to claim C8: a component whose results are empty
(Python-falsy) is skipped, not assigned to a chapter — even though its
name matches the "Skin Panels" keyword group, `organize` returns no
chapter at all for the input holding only it. -/
theorem C8_counterexample :
    organize [("Skin_1", Obj.dict [])] = [] ∧
    chapter_of "Skin_1" = "Skin Panels" := by
  exact ⟨rfl, rfl⟩

/-- Claim C8, amended: on flat (untagged) input, every component *with
non-falsy data* is assigned to the chapter named by testing its
lowercased name against the ordered keyword groups (skin/panel, rib,
spar/web, clip/splice/joint, stringer/stiffener, else Miscellaneous;
first match wins), and the returned chapters are sorted alphabetically
by title.  Components with empty (falsy) results are silently dropped. -/
theorem C8_chapter_grouping :
    (∀ name : String,
      (strContains (strLower name) "skin" || strContains (strLower name) "panel") = true →
      chapter_of name = "Skin Panels") ∧
    (∀ name : String,
      (strContains (strLower name) "skin" || strContains (strLower name) "panel") = false →
      strContains (strLower name) "rib" = true →
      chapter_of name = "Rib Structure") ∧
    (∀ name : String,
      (strContains (strLower name) "skin" || strContains (strLower name) "panel") = false →
      strContains (strLower name) "rib" = false →
      (strContains (strLower name) "spar" || strContains (strLower name) "web") = true →
      chapter_of name = "Spars & Webs") ∧
    (∀ name : String,
      (strContains (strLower name) "skin" || strContains (strLower name) "panel") = false →
      strContains (strLower name) "rib" = false →
      (strContains (strLower name) "spar" || strContains (strLower name) "web") = false →
      (strContains (strLower name) "clip" || strContains (strLower name) "splice" ||
        strContains (strLower name) "joint") = true →
      chapter_of name = "Fittings & Joints") ∧
    (∀ name : String,
      (strContains (strLower name) "skin" || strContains (strLower name) "panel") = false →
      strContains (strLower name) "rib" = false →
      (strContains (strLower name) "spar" || strContains (strLower name) "web") = false →
      (strContains (strLower name) "clip" || strContains (strLower name) "splice" ||
        strContains (strLower name) "joint") = false →
      (strContains (strLower name) "stringer" || strContains (strLower name) "stiffener") = true →
      chapter_of name = "Stringers & Stiffeners") ∧
    (∀ name : String,
      (strContains (strLower name) "skin" || strContains (strLower name) "panel") = false →
      strContains (strLower name) "rib" = false →
      (strContains (strLower name) "spar" || strContains (strLower name) "web") = false →
      (strContains (strLower name) "clip" || strContains (strLower name) "splice" ||
        strContains (strLower name) "joint") = false →
      (strContains (strLower name) "stringer" || strContains (strLower name) "stiffener") = false →
      chapter_of name = "Miscellaneous Components") ∧
    (∀ (raw : List (String × Obj)) (name : String) (d : Obj),
      raw.lookup "Elements" = Option.none → raw.lookup "Freebodies" = Option.none →
      (name, d) ∈ raw → d.isFalsy = false →
      ∃ ms, (chapter_of name, Obj.dict ms) ∈ organize raw ∧ (name, d) ∈ ms) ∧
    (∀ raw : List (String × Obj),
      raw.lookup "Elements" = Option.none → raw.lookup "Freebodies" = Option.none →
      (organize raw).Pairwise keyLe) := by
  refine ⟨?_, ?_, ?_, ?_, ?_, ?_, ?_, ?_⟩
  · intro name h
    simp [chapter_of, h]
  · intro name h1 h2
    simp [chapter_of, h1, h2]
  · intro name h1 h2 h3
    simp only [Bool.or_eq_false_iff] at h1 h3
    simp [chapter_of, h1.1, h1.2, h2, h3]
  · intro name h1 h2 h3 h4
    simp only [Bool.or_eq_false_iff] at h1 h3
    simp [chapter_of, h1.1, h1.2, h2, h3.1, h3.2, h4]
  · intro name h1 h2 h3 h4 h5
    simp only [Bool.or_eq_false_iff] at h1 h3 h4
    simp [chapter_of, h1.1, h1.2, h2, h3.1, h3.2, h4.1.1, h4.1.2, h4.2, h5]
  · intro name h1 h2 h3 h4 h5
    simp only [Bool.or_eq_false_iff] at h1 h3 h4 h5
    simp [chapter_of, h1.1, h1.2, h2, h3.1, h3.2, h4.1.1, h4.1.2, h4.2, h5.1, h5.2]
  · intro raw name d hE hF hmem hfal
    rw [organize, if_neg (by rw [hE, hF]; simp)]
    obtain ⟨ms, hms, hnd⟩ := groupFold_mem raw [] name d hmem hfal
    refine ⟨ms, ?_, hnd⟩
    rw [List.mem_insertionSort]
    exact List.mem_map_of_mem (fun p => (p.1, Obj.dict p.2)) hms
  · intro raw hE hF
    rw [organize, if_neg (by rw [hE, hF]; simp)]
    exact List.sorted_insertionSort keyLe _

/-- Witness for C8 (amended): a flat two-component input; "Skin_1"
lands in "Skin Panels", and the output chapters are sorted. -/
theorem C8_chapter_grouping_witness :
    chapter_of "Skin_1" = "Skin Panels" ∧
    (∃ ms, (chapter_of "Skin_1", Obj.dict ms) ∈
        organize [("Skin_1", Obj.dict [("1", Obj.str "ok")]),
          ("Rib_7", Obj.dict [("1", Obj.str "ok")])] ∧
      ("Skin_1", Obj.dict [("1", Obj.str "ok")]) ∈ ms) ∧
    (organize [("Skin_1", Obj.dict [("1", Obj.str "ok")]),
        ("Rib_7", Obj.dict [("1", Obj.str "ok")])]).Pairwise keyLe :=
  ⟨C8_chapter_grouping.1 "Skin_1" (by decide),
   C8_chapter_grouping.2.2.2.2.2.2.1
     [("Skin_1", Obj.dict [("1", Obj.str "ok")]), ("Rib_7", Obj.dict [("1", Obj.str "ok")])]
     "Skin_1" (Obj.dict [("1", Obj.str "ok")]) rfl rfl
     (List.mem_cons_self _ _) rfl,
   C8_chapter_grouping.2.2.2.2.2.2.2
     [("Skin_1", Obj.dict [("1", Obj.str "ok")]), ("Rib_7", Obj.dict [("1", Obj.str "ok")])]
     rfl rfl⟩

/-- Counterexample to claim C9: `organize` is not idempotent on tagged
input.  A single application renames the `Elements` bucket to
"Structural Elements (Panels & Shells)"; a second application no longer
sees the tags, so the flat heuristic fires on that renamed title (which
contains "panel") and wraps the whole bucket under "Skin Panels" —
different titles, different nesting. -/
theorem C9_counterexample :
    (organize (organize tagged_demo)).map Prod.fst ≠ (organize tagged_demo).map Prod.fst := by
  decide

/-- Claim C9, amended: on tagged input `organize` renames the buckets
to the two fixed section titles, but a second application reclassifies
those renamed titles through the name heuristic: "Structural Elements
(Panels & Shells)" contains "panel" and is wrapped under "Skin Panels",
"Joints & Interface Loads" contains "joint" and is wrapped under
"Fittings & Joints" (sorted alphabetically), so the double application
differs from the single one whenever both buckets are non-falsy. -/
theorem C9_organize_not_idempotent (x : List (String × Obj)) (e f : Obj)
    (hE : x.lookup "Elements" = some e) (hF : x.lookup "Freebodies" = some f)
    (he : e.isFalsy = false) (hf : f.isFalsy = false) :
    organize x = [("Structural Elements (Panels & Shells)", e),
      ("Joints & Interface Loads", f)] ∧
    organize (organize x) =
      [("Fittings & Joints", Obj.dict [("Joints & Interface Loads", f)]),
       ("Skin Panels", Obj.dict [("Structural Elements (Panels & Shells)", e)])] ∧
    organize (organize x) ≠ organize x := by
  have h1 : organize x = [("Structural Elements (Panels & Shells)", e),
      ("Joints & Interface Loads", f)] := by
    rw [organize, hE, hF]
    rw [if_pos (by simp)]
    rfl
  have h2 : organize (organize x) =
      [("Fittings & Joints", Obj.dict [("Joints & Interface Loads", f)]),
       ("Skin Panels", Obj.dict [("Structural Elements (Panels & Shells)", e)])] := by
    rw [h1, organize]
    rw [if_neg (by simp [List.lookup])]
    rw [groupComponents, List.foldl_cons, List.foldl_cons, List.foldl_nil]
    dsimp only
    have hcE : chapter_of "Structural Elements (Panels & Shells)" = "Skin Panels" := rfl
    have hcF : chapter_of "Joints & Interface Loads" = "Fittings & Joints" := rfl
    have hle : ¬ (("Skin Panels" : String) ≤ "Fittings & Joints") := by
      rw [String.le_iff_toList_le]
      decide
    simp only [he, hf, Bool.false_eq_true, if_false, hcE, hcF]
    simp [addToChapter, List.insertionSort, List.orderedInsert, keyLe, hle]
  refine ⟨h1, h2, ?_⟩
  intro hcontra
  rw [h2, h1] at hcontra
  simp at hcontra

/-- Witness for C9 (amended): the two-bucket tagged demo input. -/
theorem C9_organize_not_idempotent_witness :
    tagged_demo2.lookup "Elements" = some (Obj.dict [("CompA", Obj.str "result")]) ∧
    (Obj.dict [("CompA", Obj.str "result")]).isFalsy = false ∧
    organize tagged_demo2 =
      [("Structural Elements (Panels & Shells)", Obj.dict [("CompA", Obj.str "result")]),
       ("Joints & Interface Loads", Obj.dict [("CompB", Obj.str "result")])] ∧
    organize (organize tagged_demo2) ≠ organize tagged_demo2 := by
  have h := C9_organize_not_idempotent tagged_demo2
    (Obj.dict [("CompA", Obj.str "result")]) (Obj.dict [("CompB", Obj.str "result")])
    rfl rfl rfl rfl
  exact ⟨rfl, rfl, h.1, h.2.2⟩

end Pilatus
